import Mathlib

/-!
Verification of the ssstiik-backend URL-resolution pipeline (src/main.py).

The Python module is shallowly embedded as follows:
- JSON values produced by json.loads are modelled by the inductive type `Json`;
  objects are association lists in insertion order (the payloads the claims
  quantify over have pairwise-distinct keys, so first-match lookup agrees with
  Python dict lookup).
- Python dictionaries returned by the resolver are modelled by the structure
  `ResultDict`; a key that is absent from the Python dict is modelled as the
  value `Json.null`, which is observationally equivalent because every consumer
  reads the dict through dict.get with default None.
- Exceptions inside the parsers are modelled with the Option monad: `none`
  stands for "an exception was raised (or the guard fell through)"; the
  try/except wrapper that converts any exception into the fixed failure record
  becomes `Option.getD`.
- Network calls (httpx) are modelled as oracle parameters: the redirect client
  of get_redirect_url as `String → Except Unit String`, the page fetch of
  fetch_tiktok_data as `String → FetchResult`, json.loads as a decoder
  parameter `String → Option Json` (none = JSONDecodeError), and the str()
  rendering of the UnicodeDecodeError raised while escape-decoding a raw
  downloadAddr capture as `String → String`.
- Python string operations (strip, lower, substring containment, \w, \d, \s)
  are modelled over ASCII, which covers every string the code compares against.
-/

/-- JSON values as produced by json.loads. Numbers are modelled as integers
(the fields the code reads numerically are integer durations); `null` is
Python's None. -/
inductive Json where
  | null : Json
  | bool (b : Bool) : Json
  | num (n : Int) : Json
  | str (s : String) : Json
  | arr (xs : List Json) : Json
  | obj (fields : List (String × Json)) : Json

/-- First-match association-list lookup, modelling Python dict lookup (the
payloads quantified over have distinct keys). -/
def pyLookup : List (String × Json) → String → Option Json
  | [], _ => none
  | (k, v) :: rest, key => if k = key then some v else pyLookup rest key

/-- Python truthiness of a JSON value: None, False, 0, "", [] and the empty
dict are falsy, everything else is truthy. -/
def pyTruthy : Json → Bool
  | Json.null => false
  | Json.bool b => b
  | Json.num n => !(n == 0)
  | Json.str s => !s.isEmpty
  | Json.arr [] => false
  | Json.arr (_ :: _) => true
  | Json.obj [] => false
  | Json.obj (_ :: _) => true

/-- d.get(k, dflt): returns the default when the key is absent; raises
AttributeError (modelled as none) when the receiver is not a dict. -/
def pyGetD (j : Json) (k : String) (dflt : Json) : Option Json :=
  match j with
  | Json.obj fs => some ((pyLookup fs k).getD dflt)
  | _ => none

/-- d[k]: subscript; raises (none) on a missing key or a non-dict receiver. -/
def pySubscript (j : Json) (k : String) : Option Json :=
  match j with
  | Json.obj fs => pyLookup fs k
  | _ => none

/-- list(d.keys()): raises (none) on a non-dict receiver. -/
def pyKeys : Json → Option (List String)
  | Json.obj fs => some (fs.map (fun p => p.1))
  | _ => none

/-- x[0] on a JSON value: first element of a list, first character of a
nonempty string; raises (none) otherwise. -/
def pyIndex0 : Json → Option Json
  | Json.arr (x :: _) => some x
  | Json.str s =>
    match s.toList with
    | c :: _ => some (Json.str (String.mk [c]))
    | [] => none
  | _ => none

/-- Python `a or b` on JSON values: a if truthy, else b. -/
def pyOr (a b : Json) : Json :=
  if pyTruthy a then a else b

/-- str() of a JSON value. Only strings and integers are rendered faithfully
(those are the only shapes the code's claims exercise through str); container
rendering is a stub that no theorem depends on. -/
def pyStr : Json → String
  | Json.str s => s
  | Json.num n => toString n
  | Json.bool true => "True"
  | Json.bool false => "False"
  | Json.null => "None"
  | Json.arr _ => "[...]"
  | Json.obj _ => "..."

/-- The Python dicts built by the resolver (src/main.py). A key the Python
code leaves out of a dict literal is modelled as `Json.null`: every consumer
reads these dicts via dict.get, for which an absent key and a None value are
indistinguishable. -/
structure ResultDict where
  success : Bool := false
  video : Json := Json.null
  video_hd : Json := Json.null
  video_sd : Json := Json.null
  thumbnail : Json := Json.null
  title : Json := Json.null
  author : Json := Json.null
  duration : Json := Json.null
  error : Json := Json.null

/-- The fixed failure record both payload parsers return on fallthrough or on
a caught exception (src/main.py lines 157 and 196). -/
def unrecognized_format_record : ResultDict :=
  { success := false, error := Json.str "Formato de dados não reconhecido" }

/-- Body of parse_sigi_data (src/main.py lines 135-153): the code inside the
try block. `none` models both a raised-and-caught exception and the
fall-through when ItemModule is falsy; either way the caller substitutes the
fixed failure record. The dict.get calls are sequenced in source order; all
of them are effect-free apart from possibly raising, so hoisting them before
the dict literal is observationally identical to the Python dict literal. -/
def parse_sigi_body (data : Json) : Option ResultDict :=
  match pyGetD data "ItemModule" (Json.obj []) with
  | none => none
  | some item_module =>
  if pyTruthy item_module then
    match pyKeys item_module with
    | none => none
    | some keys =>
    match keys.head? with
    | none => none
    | some video_id =>
    match pySubscript item_module video_id with
    | none => none
    | some video_data =>
    match pyGetD video_data "video" (Json.obj []) with
    | none => none
    | some video_info =>
    match pyGetD video_data "author" (Json.obj []) with
    | none => none
    | some author_info =>
    match pyGetD video_info "downloadAddr" Json.null with
    | none => none
    | some dl =>
    match pyGetD video_info "playAddr" Json.null with
    | none => none
    | some pl =>
    match pyGetD video_info "cover" Json.null with
    | none => none
    | some cv =>
    match pyGetD video_info "originCover" Json.null with
    | none => none
    | some oc =>
    match pyGetD video_data "desc" (Json.str "Vídeo do TikTok") with
    | none => none
    | some ttl =>
    match pyGetD author_info "uniqueId" Json.null with
    | none => none
    | some uid =>
    match pyGetD author_info "nickname" Json.null with
    | none => none
    | some nick =>
    match pyGetD video_info "duration" Json.null with
    | none => none
    | some dur =>
    some { success := true,
           video := pyOr dl pl,
           video_hd := dl,
           video_sd := pl,
           thumbnail := pyOr cv oc,
           title := ttl,
           author := pyOr uid nick,
           duration := if pyTruthy dur then Json.str (pyStr dur ++ "s") else Json.null }
  else none

/-- parse_sigi_data (src/main.py lines 133-157). -/
def parse_sigi_data (data : Json) : ResultDict :=
  (parse_sigi_body data).getD unrecognized_format_record

/-- The bitrateInfo scan of parse_universal_data (src/main.py lines 177-181):
for each entry, if bitrate.get('PlayAddr', \x7b\x7d).get('UrlList') is truthy,
replace play_addr with bitrate['PlayAddr']['UrlList'][0] and break. -/
def bitrateLoop (pa : Json) : List Json → Option Json
  | [] => some pa
  | b :: rest =>
    match pyGetD b "PlayAddr" (Json.obj []) with
    | none => none
    | some pAddr0 =>
    match pyGetD pAddr0 "UrlList" Json.null with
    | none => none
    | some urlList0 =>
    if pyTruthy urlList0 then
      match pySubscript b "PlayAddr" with
      | none => none
      | some pAddr =>
      match pySubscript pAddr "UrlList" with
      | none => none
      | some ul => pyIndex0 ul
    else bitrateLoop pa rest

/-- Body of parse_universal_data (src/main.py lines 162-192), conventions as
in `parse_sigi_body`. Iterating a truthy non-list bitrateInfo raises in
Python (strings and dicts yield elements without .get, numbers are not
iterable), hence the `none` in the non-arr truthy case. -/
def parse_universal_body (data : Json) : Option ResultDict :=
  match pyGetD data "__DEFAULT_SCOPE__" (Json.obj []) with
  | none => none
  | some default_scope =>
  match pyGetD default_scope "webapp.video-detail" (Json.obj []) with
  | none => none
  | some webapp_detail =>
  match pyGetD webapp_detail "itemInfo" (Json.obj []) with
  | none => none
  | some item_info_outer =>
  match pyGetD item_info_outer "itemStruct" (Json.obj []) with
  | none => none
  | some item_info =>
  if pyTruthy item_info then
    match pyGetD item_info "video" (Json.obj []) with
    | none => none
    | some video_info =>
    match pyGetD item_info "author" (Json.obj []) with
    | none => none
    | some author_info =>
    match pyGetD video_info "playAddr" Json.null with
    | none => none
    | some play_addr0 =>
    match pyGetD video_info "downloadAddr" Json.null with
    | none => none
    | some download_addr =>
    match pyGetD video_info "bitrateInfo" (Json.arr []) with
    | none => none
    | some bitrate_list =>
    match
      (if pyTruthy bitrate_list then
        match bitrate_list with
        | Json.arr xs => bitrateLoop play_addr0 xs
        | _ => none
      else some play_addr0) with
    | none => none
    | some play_addr =>
    match pyGetD video_info "cover" Json.null with
    | none => none
    | some cv =>
    match pyGetD video_info "originCover" Json.null with
    | none => none
    | some oc =>
    match pyGetD item_info "desc" (Json.str "Vídeo do TikTok") with
    | none => none
    | some ttl =>
    match pyGetD author_info "uniqueId" Json.null with
    | none => none
    | some uid =>
    match pyGetD author_info "nickname" Json.null with
    | none => none
    | some nick =>
    match pyGetD video_info "duration" Json.null with
    | none => none
    | some dur =>
    some { success := true,
           video := pyOr download_addr play_addr,
           video_hd := download_addr,
           video_sd := play_addr,
           thumbnail := pyOr cv oc,
           title := ttl,
           author := pyOr uid nick,
           duration := if pyTruthy dur then Json.str (pyStr dur ++ "s") else Json.null }
  else none

/-- parse_universal_data (src/main.py lines 160-196). -/
def parse_universal_data (data : Json) : ResultDict :=
  (parse_universal_body data).getD unrecognized_format_record

/-! ## Regular-expression scanners

The regexes of src/main.py are simple enough that their Python semantics
(leftmost match of re.search, greedy character classes) are deterministic:
every character class in them is disjoint from the literal that follows it,
so greedy matching never backtracks. Each pattern is embedded as a matcher
that attempts the pattern at one position, and re.search as the first
position (left to right) at which the matcher succeeds. -/

/-- Match a literal at the head of the input, returning the rest. -/
def stripPref : List Char → List Char → Option (List Char)
  | [], s => some s
  | _ :: _, [] => none
  | p :: ps, c :: cs => if p = c then stripPref ps cs else none

/-- Boolean list-prefix test. -/
def prefL : List Char → List Char → Bool
  | [], _ => true
  | _ :: _, [] => false
  | a :: as, b :: bs => a == b && prefL as bs

/-- re.search: try the position matcher at each position, left to right;
first success wins. -/
def trySuffixes (m : List Char → Option String) : List Char → Option String
  | [] => none
  | c :: rest =>
    match m (c :: rest) with
    | some r => some r
    | none => trySuffixes m rest

/-- Python ASCII \s characters. -/
def pyIsSpace (c : Char) : Bool :=
  c = ' ' || c = '\t' || c = '\n' || c = '\r' || c = '\x0b' || c = '\x0c'

/-- Python ASCII \w characters. -/
def wordCh (c : Char) : Bool :=
  c.isAlphanum || c = '_'

/-- One position of the script-tag regex
idLit [^>]*> ([^<]+) < /script> (src/main.py lines 98 and 107): after the
literal id attribute, skip greedily to the closing angle bracket, capture the
maximal nonempty run without an opening angle bracket, and require the
closing script tag right there. -/
def scriptTagAt (idLit : List Char) (s : List Char) : Option String :=
  match stripPref idLit s with
  | none => none
  | some r1 =>
    match r1.dropWhile (fun c => c ≠ '>') with
    | [] => none
    | c :: r3 =>
      if c = '>' then
        let cap := r3.takeWhile (fun c2 => c2 ≠ '<')
        if cap.isEmpty then none
        else if prefL "</script>".toList (r3.dropWhile (fun c2 => c2 ≠ '<')) then
          some (String.mk cap)
        else none
      else none

/-- The SIGI_STATE script-tag search (src/main.py line 98). -/
def findSigi (html : String) : Option String :=
  trySuffixes (scriptTagAt "<script id=\"SIGI_STATE\"".toList) html.toList

/-- The __UNIVERSAL_DATA_FOR_REHYDRATION__ script-tag search
(src/main.py line 107). -/
def findUniversal (html : String) : Option String :=
  trySuffixes (scriptTagAt "<script id=\"__UNIVERSAL_DATA_FOR_REHYDRATION__\"".toList) html.toList

/-- One position of the raw downloadAddr regex (src/main.py line 116):
the quoted field name, optional whitespace around the colon, then a quoted
nonempty capture without inner quotes. -/
def dlAddrAt (s : List Char) : Option String :=
  match stripPref "\"downloadAddr\"".toList s with
  | none => none
  | some r1 =>
    match r1.dropWhile pyIsSpace with
    | ':' :: r3 =>
      match r3.dropWhile pyIsSpace with
      | '"' :: r5 =>
        let cap := r5.takeWhile (fun c => c ≠ '"')
        if cap.isEmpty then none
        else
          match r5.dropWhile (fun c => c ≠ '"') with
          | '"' :: _ => some (String.mk cap)
          | _ => none
      | _ => none
    | _ => none

/-- The raw downloadAddr search (src/main.py line 116). -/
def findDownloadAddr (html : String) : Option String :=
  trySuffixes dlAddrAt html.toList

/-- Numeric value of a hexadecimal digit. -/
def hexVal? (c : Char) : Option Nat :=
  if c.isDigit then some (c.toNat - 48)
  else if 'a' ≤ c && c ≤ 'f' then some (c.toNat - 87)
  else if 'A' ≤ c && c ≤ 'F' then some (c.toNat - 55)
  else none

/-- Numeric value of an octal digit. -/
def octVal? (c : Char) : Option Nat :=
  if '0' ≤ c && c ≤ '7' then some (c.toNat - 48) else none

/-- Scalar values representable as Lean characters; an escape denoting a
lone UTF-16 surrogate (which a Python string can hold but a Lean character
cannot) is outside the model's scope. -/
def isValidScalar (n : Nat) : Bool :=
  n < 0xD800 || (0xDFFF < n && n ≤ 0x10FFFF)

/-- The unicode_escape codec applied by method 3
(group(1).encode().decode('unicode_escape'), src/main.py line 118), modelled
at the string level for ASCII captures. The codec's escapes are decoded:
the quote and backslash escapes, the letter escapes (n t r a b f v), the
escaped-newline line continuation, one-to-three-digit octal escapes, and
the hexadecimal escapes with two (x), four (u) or eight (U) digits. A
trailing backslash and a truncated or malformed x, u or U escape make the
codec raise UnicodeDecodeError, modelled as none, as does a codepoint above
the Unicode maximum in a U escape; any other backslash sequence keeps its
backslash and character, as the codec does for unrecognized escapes.
Outside the model's scope and conservatively mapped to none: N named
escapes (whose decoding needs the Unicode name table; the codec raises on
malformed or unknown names) and escapes denoting lone surrogates. The
recursion is fuelled only to make termination structural; see unescapeL. -/
def unescapeFuel : Nat → List Char → Option (List Char)
  | 0, _ => none
  | Nat.succ fuel, s =>
    match s with
    | [] => some []
    | c :: rest =>
      if c = '\\' then
        match rest with
        | [] => none
        | e :: t =>
          if e = '\n' then unescapeFuel fuel t
          else if e = 'n' then (unescapeFuel fuel t).map (fun r => '\n' :: r)
          else if e = 't' then (unescapeFuel fuel t).map (fun r => '\t' :: r)
          else if e = 'r' then (unescapeFuel fuel t).map (fun r => '\r' :: r)
          else if e = 'a' then (unescapeFuel fuel t).map (fun r => '\x07' :: r)
          else if e = 'b' then (unescapeFuel fuel t).map (fun r => '\x08' :: r)
          else if e = 'f' then (unescapeFuel fuel t).map (fun r => '\x0c' :: r)
          else if e = 'v' then (unescapeFuel fuel t).map (fun r => '\x0b' :: r)
          else if e = '\\' then (unescapeFuel fuel t).map (fun r => '\\' :: r)
          else if e = '\'' then (unescapeFuel fuel t).map (fun r => '\'' :: r)
          else if e = '"' then (unescapeFuel fuel t).map (fun r => '"' :: r)
          else
            match octVal? e with
            | some d1 =>
              match t with
              | [] => some [Char.ofNat d1]
              | c2 :: t2 =>
                match octVal? c2 with
                | none => (unescapeFuel fuel t).map (fun r => Char.ofNat d1 :: r)
                | some d2 =>
                  match t2 with
                  | [] => some [Char.ofNat (d1 * 8 + d2)]
                  | c3 :: t3 =>
                    match octVal? c3 with
                    | none =>
                      (unescapeFuel fuel t2).map (fun r => Char.ofNat (d1 * 8 + d2) :: r)
                    | some d3 =>
                      (unescapeFuel fuel t3).map
                        (fun r => Char.ofNat ((d1 * 8 + d2) * 8 + d3) :: r)
            | none =>
              if e = 'x' then
                match t with
                | h1 :: h2 :: t2 =>
                  match hexVal? h1, hexVal? h2 with
                  | some a, some b =>
                    (unescapeFuel fuel t2).map (fun r => Char.ofNat (a * 16 + b) :: r)
                  | _, _ => none
                | _ => none
              else if e = 'u' then
                match t with
                | h1 :: h2 :: h3 :: h4 :: t2 =>
                  match hexVal? h1, hexVal? h2, hexVal? h3, hexVal? h4 with
                  | some a, some b, some c2, some d =>
                    let n := ((a * 16 + b) * 16 + c2) * 16 + d
                    if isValidScalar n then
                      (unescapeFuel fuel t2).map (fun r => Char.ofNat n :: r)
                    else none
                  | _, _, _, _ => none
                | _ => none
              else if e = 'U' then
                match t with
                | h1 :: h2 :: h3 :: h4 :: h5 :: h6 :: h7 :: h8 :: t2 =>
                  match hexVal? h1, hexVal? h2, hexVal? h3, hexVal? h4,
                        hexVal? h5, hexVal? h6, hexVal? h7, hexVal? h8 with
                  | some a, some b, some c2, some d, some a2, some b2, some c3, some d2 =>
                    let n :=
                      ((((((a * 16 + b) * 16 + c2) * 16 + d) * 16 + a2) * 16 + b2) * 16 + c3)
                        * 16 + d2
                    if isValidScalar n then
                      (unescapeFuel fuel t2).map (fun r => Char.ofNat n :: r)
                    else none
                  | _, _, _, _, _, _, _, _ => none
                | _ => none
              else if e = 'N' then none
              else (unescapeFuel fuel t).map (fun r => '\\' :: e :: r)
      else (unescapeFuel fuel rest).map (fun r => c :: r)

/-- The codec entry point: the fuel starts above the input length and every
recursive call consumes at least one character while spending one unit of
fuel, so the fuel-exhausted case of unescapeFuel is never reached. -/
def unescapeL (s : List Char) : Option (List Char) :=
  unescapeFuel (s.length + 1) s

/-- String-level unicode_escape decoding; none models a raised
UnicodeDecodeError, which the caller's bare except converts into the
caught-exception failure record. -/
def unicode_escape (s : String) : Option String :=
  (unescapeL s.toList).map String.mk

/-! ## Python string operations (ASCII-faithful models) -/

/-- Substring containment on character lists: some suffix of the haystack
starts with the needle. -/
def containsL (n : List Char) : List Char → Bool
  | [] => n.isEmpty
  | c :: t => prefL n (c :: t) || containsL n t

/-- Python `needle in hay`. -/
def pyContains (hay needle : String) : Bool :=
  containsL needle.toList hay.toList

/-- Python str.lower (ASCII). -/
def pyLower (s : String) : String :=
  String.mk (s.toList.map Char.toLower)

/-- Strip leading and trailing whitespace from a character list. -/
def pyStripL (s : List Char) : List Char :=
  ((s.dropWhile pyIsSpace).reverse.dropWhile pyIsSpace).reverse

/-- Python str.strip(). -/
def pyStrip (s : String) : String :=
  String.mk (pyStripL s.toList)

/-! ## Network-facing operations -/

/-- Outcome of the page fetch in fetch_tiktok_data: the body text, a
httpx.TimeoutException, or any other exception with its str() description. -/
inductive FetchResult where
  | ok (html : String) : FetchResult
  | timeout : FetchResult
  | exn (msg : String) : FetchResult

/-- get_redirect_url (src/main.py lines 62-69). The redirect-following HEAD
request is the oracle `rc`: `Except.ok final` is the client's resolved final
URL, `Except.error` any raised exception; the bare except returns the
original URL. The function is total, so no exception ever propagates. -/
def get_redirect_url (rc : String → Except Unit String) (short_url : String) : String :=
  match rc short_url with
  | Except.ok final => final
  | Except.error _ => short_url

/-- Method 3 of fetch_tiktok_data (src/main.py lines 116-125): the raw
downloadAddr scan. A matched capture is unicode_escape-decoded: a clean
decode yields the success dict that sets only the generic and HD fields; a
decode error (a raised UnicodeDecodeError) propagates to the outer
except Exception of src/main.py line 129, which returns the
caught-exception record whose message appends str(e) - that str() rendering
of the UnicodeDecodeError raised for a given capture is the oracle `em`.
With no regex match, the extraction-failure record. -/
def fetch_try3 (em : String → String) (html : String) : ResultDict :=
  match findDownloadAddr html with
  | some cap =>
    match unicode_escape cap with
    | some video_url =>
      { success := true, video := Json.str video_url, video_hd := Json.str video_url }
    | none => { success := false, error := Json.str ("Erro ao processar: " ++ em cap) }
  | none => { success := false, error := Json.str "Não foi possível extrair dados do vídeo" }

/-- Method 2 of fetch_tiktok_data (src/main.py lines 107-113): on a matched
rehydration script whose payload decodes, return parse_universal_data's
result; on no match or a JSONDecodeError, fall through to method 3. -/
def fetch_try2 (jdec : String → Option Json) (em : String → String) (html : String) :
    ResultDict :=
  match findUniversal html with
  | some payload =>
    match jdec payload with
    | some d => parse_universal_data d
    | none => fetch_try3 em html
  | none => fetch_try3 em html

/-- fetch_tiktok_data (src/main.py lines 72-130). `rc` is the redirect
client of get_redirect_url, `net` the page fetch (httpx get + response.text),
`jdec` json.loads (none = JSONDecodeError), `em` the str() rendering of the
UnicodeDecodeError method 3's decode raises for a given capture. Methods 1
to 3 run on the body; a timeout or any other exception raised while
fetching or parsing is caught and mapped to a failure record, so the
function is total. -/
def fetch_tiktok_data (rc : String → Except Unit String) (net : String → FetchResult)
    (jdec : String → Option Json) (em : String → String) (url : String) : ResultDict :=
  let url1 := if pyContains url "vm.tiktok.com" || pyContains url "/t/" then
      get_redirect_url rc url
    else url
  match net url1 with
  | FetchResult.timeout => { success := false, error := Json.str "Timeout ao acessar o TikTok" }
  | FetchResult.exn m => { success := false, error := Json.str ("Erro ao processar: " ++ m) }
  | FetchResult.ok html =>
    match findSigi html with
    | some payload =>
      match jdec payload with
      | some d => parse_sigi_data d
      | none => fetch_try2 jdec em html
    | none => fetch_try2 jdec em html

/-! ## HTTP endpoints -/

/-- The pydantic response model DownloadResponse (src/main.py lines 33-43);
absent optional fields are modelled as Json.null. -/
structure DownloadResponse where
  success : Bool
  video : Json := Json.null
  video_hd : Json := Json.null
  video_sd : Json := Json.null
  audio : Json := Json.null
  thumbnail : Json := Json.null
  title : Json := Json.null
  author : Json := Json.null
  duration : Json := Json.null
  error : Json := Json.null

/-- POST /api/download (src/main.py lines 217-252). The metadata resolver is
the parameter `fetcher` (fetch_tiktok_data with its oracles fixed), so that
independence from `fetcher` expresses that no network call is made. -/
def download_video (fetcher : String → ResultDict) (req_url : String) : DownloadResponse :=
  let url := pyStrip req_url
  if url = "" then { success := false, error := Json.str "URL não fornecida" }
  else if !(pyContains (pyLower url) "tiktok.com") then
    { success := false, error := Json.str "URL inválida. Forneça um link do TikTok." }
  else
    let result := fetcher url
    if result.success then
      { success := true,
        video := result.video,
        video_hd := result.video_hd,
        video_sd := result.video_sd,
        audio := Json.null,
        thumbnail := result.thumbnail,
        title := result.title,
        author := result.author,
        duration := result.duration }
    else
      { success := false,
        error := match result.error with
          | Json.null => Json.str "Erro desconhecido ao processar o vídeo"
          | e => e }

/-- GET /api/info (src/main.py lines 255-266): a 400 HTTPException for a URL
without the platform domain, otherwise the resolver's raw dict. -/
def get_video_info (fetcher : String → ResultDict) (url : String) :
    Except (Nat × String) ResultDict :=
  if !(pyContains (pyLower url) "tiktok.com") then Except.error (400, "URL inválida")
  else Except.ok (fetcher url)

/-! ## extract_video_id -/

/-- One position of pattern 1 (src/main.py line 49):
tiktok com /@ [\w.-]+ /video/ (\d+). The account-name class excludes the
slash that follows it and the digit class is final, so greedy matching is
the maximal run at each step. -/
def m1At (s : List Char) : Option String :=
  match stripPref "tiktok.com/@".toList s with
  | none => none
  | some r1 =>
    let user := r1.takeWhile (fun c => wordCh c || c = '.' || c = '-')
    if user.isEmpty then none
    else
      match stripPref "/video/".toList (r1.drop user.length) with
      | none => none
      | some r2 =>
        let ds := r2.takeWhile Char.isDigit
        if ds.isEmpty then none else some (String.mk ds)

/-- One position of pattern 2 (src/main.py line 50): tiktok com /t/ (\w+). -/
def m2At (s : List Char) : Option String :=
  match stripPref "tiktok.com/t/".toList s with
  | none => none
  | some r =>
    let w := r.takeWhile wordCh
    if w.isEmpty then none else some (String.mk w)

/-- One position of pattern 3 (src/main.py line 51): vm tiktok com / (\w+). -/
def m3At (s : List Char) : Option String :=
  match stripPref "vm.tiktok.com/".toList s with
  | none => none
  | some r =>
    let w := r.takeWhile wordCh
    if w.isEmpty then none else some (String.mk w)

/-- The `.* [?&] v= (\d+)` tail of pattern 4: the greedy dot (which cannot
cross a newline) takes the rightmost query-parameter occurrence on the line,
so scan forward up to the first newline and keep the last hit. -/
def m4ScanLine : List Char → Option String
  | [] => none
  | c :: rest =>
    if c = '\n' then none
    else
      let here :=
        if c = '?' || c = '&' then
          match rest with
          | 'v' :: '=' :: r2 =>
            let ds := r2.takeWhile Char.isDigit
            if ds.isEmpty then none else some (String.mk ds)
          | _ => none
        else none
      match m4ScanLine rest with
      | some r => some r
      | none => here

/-- One position of pattern 4 (src/main.py line 52):
tiktok com / .* [?&] v= (\d+). -/
def m4At (s : List Char) : Option String :=
  match stripPref "tiktok.com/".toList s with
  | none => none
  | some r => m4ScanLine r

/-- extract_video_id (src/main.py lines 46-59): the four patterns tried in
order, first re.search hit wins, None when none match. -/
def extract_video_id (url : String) : Option String :=
  match trySuffixes m1At url.toList with
  | some v => some v
  | none =>
    match trySuffixes m2At url.toList with
    | some v => some v
    | none =>
      match trySuffixes m3At url.toList with
      | some v => some v
      | none => trySuffixes m4At url.toList

/-! ## Spec-side definitions

These follow the wording of spec.md rather than the source; they exist only
to be compared against the source-side definitions above (refinement
claims), or to model repository code that is not under src/. -/

/-- Spec-side shape 1 of the payload cascade (spec 4.3 Strategy A): the SIGI
state blob succeeds when its script tag is found and its payload decodes;
its normalized result is whatever the SIGI parser produces. -/
def spec_shape1 (jdec : String → Option Json) (html : String) : Option ResultDict :=
  (findSigi html).bind (fun p => (jdec p).map parse_sigi_data)

/-- Spec-side shape 2 of the payload cascade: the rehydration-data blob. -/
def spec_shape2 (jdec : String → Option Json) (html : String) : Option ResultDict :=
  (findUniversal html).bind (fun p => (jdec p).map parse_universal_data)

/-- Spec-side shape 3 of the payload cascade (amended): the raw downloadAddr
scan applies when its regex matches; a cleanly decoded capture gives the
success record with generic and HD fields only (the code sets no SD field),
and a capture on which the codec raises gives the caught-exception failure
record built from the decode error's description. -/
def spec_shape3 (em : String → String) (html : String) : Option ResultDict :=
  (findDownloadAddr html).map (fun cap =>
    match unicode_escape cap with
    | some u =>
      { success := true,
        video := Json.str u,
        video_hd := Json.str u }
    | none => { success := false, error := Json.str ("Erro ao processar: " ++ em cap) })

/-- Spec-side cascade (spec 4.3 Strategy A, amended): the three shapes tried
in the fixed order, first applicable shape's result returned; if no shape
applies, the extraction-failure record (whose message is the code's "could
not extract video data", not the parsers' "unrecognized data format"). -/
def spec_shape_cascade (jdec : String → Option Json) (em : String → String)
    (html : String) : ResultDict :=
  (((spec_shape1 jdec html).orElse (fun _ =>
      (spec_shape2 jdec html).orElse (fun _ => spec_shape3 em html)))).getD
    { success := false, error := Json.str "Não foi possível extrair dados do vídeo" }

/-- Split a character list on a separator character, keeping empty segments,
as Python str.split(sep) does. -/
def splitL (sep : Char) : List Char → List (List Char)
  | [] => [[]]
  | c :: t =>
    let r := splitL sep t
    if c = sep then [] :: r
    else
      match r with
      | h :: t2 => (c :: h) :: t2
      | [] => [[c]]

/-- Spec-side fallback heuristic of the identifier extractor (spec 4.2):
split the URL on path separators and return the first numeric segment longer
than 10 digits. The source's extract_video_id has no such step. -/
def spec_fallback_heuristic (url : String) : Option String :=
  ((splitL '/' url.toList).find? (fun seg =>
    decide (10 < seg.length) && seg.all Char.isDigit)).map String.mk

/-- A JSON value from an optional string: the string when present, else
Python None. -/
def jsonOfOptStr : Option String → Json
  | some s => Json.str s
  | none => Json.null

/-- A JSON value from an optional integer: the number when present, else
Python None. -/
def jsonOfOptInt : Option Int → Json
  | some n => Json.num n
  | none => Json.null

/-- Spec-side field selector (amended claim wording): the first field when it
is present with a non-empty value, otherwise the second field's value. -/
def firstTruthyStr (a b : Option String) : Json :=
  match a with
  | some s => if s.isEmpty then jsonOfOptStr b else Json.str s
  | none => jsonOfOptStr b

/-- Spec-side duration rendering (amended claim wording): the decimal number
suffixed with s when the payload duration is present and non-zero, otherwise
absent. -/
def specDuration : Option Int → Json
  | some n => if n = 0 then Json.null else Json.str (toString n ++ "s")
  | none => Json.null

/-! ## Payload builders for the parser claims -/

/-- An optional object entry: present with the given value, or left out. -/
def optEntry (k : String) (v : Option Json) : List (String × Json) :=
  match v with
  | some j => [(k, j)]
  | none => []

/-- A SIGI_STATE payload with one item: ItemModule maps the id to an item
with the given video and author sub-objects and an optional description. -/
def sigiItemPayload (vid : String) (videoFields authorFields : List (String × Json))
    (descv : Option Json) : Json :=
  Json.obj [("ItemModule", Json.obj [(vid, Json.obj
    ([("video", Json.obj videoFields), ("author", Json.obj authorFields)] ++
      optEntry "desc" descv))])]

/-- A rehydration payload with the default-scope, feature-namespaced detail
object, and item struct carrying the given video and author sub-objects. -/
def universalItemPayload (videoFields authorFields : List (String × Json))
    (descv : Option Json) : Json :=
  Json.obj [("__DEFAULT_SCOPE__", Json.obj [("webapp.video-detail", Json.obj
    [("itemInfo", Json.obj [("itemStruct", Json.obj
      ([("video", Json.obj videoFields), ("author", Json.obj authorFields)] ++
        optEntry "desc" descv))])])])]

/-! ## Strategy B: third-party aggregation API (spec-modelled)

src/main.py contains only the page-scraping strategy; the third-party
aggregation strategy the spec describes lives in repository variants that are
not under src/, so it is modelled from the spec's words. -/

/-- The error kinds of the spec's ResolutionResult (spec section 3 and 7). -/
inductive ErrorKind where
  | InvalidInput : ErrorKind
  | NetworkError : ErrorKind
  | UpstreamError : ErrorKind
  | NotFound : ErrorKind
  | ParseError : ErrorKind

/-- Modelled from the spec: the normalized metadata record of the third-party
strategy (spec 4.3 Strategy B). -/
structure ApiVideoResult where
  hd : String
  sd : String
  cover : Option String
  title : String
  author : Option String
  duration : Option Int

/-- The spec's ResolutionResult tagged union (spec section 3). -/
inductive ResolutionResult where
  | success (r : ApiVideoResult) : ResolutionResult
  | failure (k : ErrorKind) (msg : String) : ResolutionResult

/-- Modelled from the spec: the third-party API's decoded JSON body (spec 4.3
Strategy B): a status code field and the media fields the spec lists. -/
structure ApiResponse where
  code : Int
  hdplay : Option String := none
  play : Option String := none
  cover : Option String := none
  title : Option String := none
  author_nickname : Option String := none
  duration : Option Int := none

/-- The scheme check of the spec's host-prefixing rule: does the URL start
with http. -/
def startsWithHttp (url : String) : Bool :=
  prefL "http".toList url.toList

/-- Modelled from the spec: "if a returned URL does not start with a scheme,
prefix it with the known API host" (spec 4.3 Strategy B and section 9). -/
def make_absolute (host url : String) : String :=
  if startsWithHttp url then url else host ++ url

/-- Modelled from the spec: resolution of a decoded third-party API body
(spec 4.3 Strategy B), absent from src/main.py. A non-zero status code is
Failure(NotFound, "video not found or private"); otherwise HD prefers hdplay
with play as fallback, SD is play, title defaults to the fixed placeholder,
and every media URL goes through the host-prefixing step. -/
def resolve_api (host : String) (resp : ApiResponse) : ResolutionResult :=
  if resp.code ≠ 0 then
    ResolutionResult.failure ErrorKind.NotFound "video not found or private"
  else
    ResolutionResult.success
      { hd := make_absolute host ((resp.hdplay).getD ((resp.play).getD ""))
        sd := make_absolute host ((resp.play).getD "")
        cover := (resp.cover).map (make_absolute host)
        title := (resp.title).getD "Vídeo do TikTok"
        author := resp.author_nickname
        duration := resp.duration }


/-! ## Helper lemmas -/

theorem prefL_eq_true_iff (a b : List Char) : prefL a b = true ↔ a <+: b := by
  induction a generalizing b with
  | nil => simp [prefL]
  | cons x xs ih =>
    cases b with
    | nil => simp [prefL]
    | cons y ys =>
      rw [ List.cons_prefix_cons]
      simp [prefL, ih, beq_iff_eq]

theorem containsL_eq_true_iff (n h : List Char) : containsL n h = true ↔ n <:+: h := by
  induction h with
  | nil => simp [containsL, List.isEmpty_iff]
  | cons c t ih =>
    rw [ List.infix_cons_iff]
    simp [containsL, prefL_eq_true_iff, ih]

theorem pyStripL_isInfix (s : List Char) : pyStripL s <:+: s := by
  have h1 : s.dropWhile pyIsSpace <:+ s := List.dropWhile_suffix _
  have h2 : (s.dropWhile pyIsSpace).reverse.dropWhile pyIsSpace <:+
      (s.dropWhile pyIsSpace).reverse := List.dropWhile_suffix _
  have h3 := List.reverse_prefix.mpr h2
  rw [List.reverse_reverse] at h3
  exact (h3.isInfix).trans h1.isInfix

theorem pyContains_strip_lower (url n : String)
    (h : pyContains (pyLower url) n = false) :
    pyContains (pyLower (pyStrip url)) n = false := by
  by_contra hc
  rw [Bool.not_eq_false] at hc
  change containsL n.toList ((pyStripL url.toList).map Char.toLower) = true at hc
  have hinf : n.toList <:+: (pyStripL url.toList).map Char.toLower :=
    (containsL_eq_true_iff _ _).1 hc
  have hmono : (pyStripL url.toList).map Char.toLower <:+: url.toList.map Char.toLower :=
    (pyStripL_isInfix url.toList).map _
  have hfull : containsL n.toList (url.toList.map Char.toLower) = true :=
    (containsL_eq_true_iff _ _).2 (hinf.trans hmono)
  change pyContains (pyLower url) n = true at hfull
  rw [h] at hfull
  exact Bool.noConfusion hfull

theorem pyLookup_self (k : String) (v : Json) (rest : List (String × Json)) :
    pyLookup ((k, v) :: rest) k = some v := by simp [pyLookup]

theorem pyOr_jsonOfOptStr (a b : Option String) :
    pyOr (jsonOfOptStr a) (jsonOfOptStr b) = firstTruthyStr a b := by
  cases a with
  | none => rfl
  | some s =>
    cases hs : s.isEmpty <;>
      simp [pyOr, pyTruthy, firstTruthyStr, jsonOfOptStr, hs]

/-- Claim C1: for every request whose URL does not contain the platform domain
substring tiktok com (checked case-insensitively, as the endpoints lower-case
the URL before the containment test; this also covers every empty URL),
POST /api/download returns success false with a non-null error message,
GET /api/info raises a 400 client error, and neither endpoint consults the
metadata resolver: the responses are independent of the fetcher, so
fetch_tiktok_data is never invoked and no network call is attempted. -/
theorem reject_non_tiktok_url (url : String) (f g : String → ResultDict)
    (h : pyContains (pyLower url) "tiktok.com" = false) :
    (download_video f url).success = false ∧
    (download_video f url).error ≠ Json.null ∧
    download_video f url = download_video g url ∧
    get_video_info f url = Except.error (400, "URL inválida") ∧
    get_video_info f url = get_video_info g url := by
  have hs : pyContains (pyLower (pyStrip url)) "tiktok.com" = false :=
    pyContains_strip_lower _ _ h
  by_cases he : pyStrip url = "" <;>
    simp [download_video, get_video_info, he, hs, h]

theorem reject_non_tiktok_url_witness :
    (download_video (fun _ => unrecognized_format_record) "https://example.com/v").success = false ∧
    (download_video (fun _ => unrecognized_format_record) "https://example.com/v").error ≠ Json.null ∧
    download_video (fun _ => unrecognized_format_record) "https://example.com/v" =
      download_video (fun _ => { success := true }) "https://example.com/v" ∧
    get_video_info (fun _ => unrecognized_format_record) "https://example.com/v" =
      Except.error (400, "URL inválida") ∧
    get_video_info (fun _ => unrecognized_format_record) "https://example.com/v" =
      get_video_info (fun _ => { success := true }) "https://example.com/v" :=
  reject_non_tiktok_url "https://example.com/v" _ _ (by decide)

/-- Claim C4: get_redirect_url returns the redirect-resolved final URL
reported by the HTTP client, and for every exception raised during resolution
it returns the original input URL unchanged; being a total function of the
client oracle, it never propagates the exception to its caller. -/
theorem get_redirect_url_best_effort (rc : String → Except Unit String) (short_url : String) :
    (∀ final, rc short_url = Except.ok final → get_redirect_url rc short_url = final) ∧
    (∀ e, rc short_url = Except.error e → get_redirect_url rc short_url = short_url) := by
  constructor
  · intro final hf
    simp [get_redirect_url, hf]
  · intro e he
    simp [get_redirect_url, he]

theorem get_redirect_url_best_effort_witness :
    get_redirect_url (fun _ => Except.ok "https://www.tiktok.com/@u/video/123")
      "https://vm.tiktok.com/ZMabc/" = "https://www.tiktok.com/@u/video/123" ∧
    get_redirect_url (fun _ => Except.error ()) "https://vm.tiktok.com/ZMabc/" =
      "https://vm.tiktok.com/ZMabc/" :=
  ⟨(get_redirect_url_best_effort (fun _ => Except.ok "https://www.tiktok.com/@u/video/123")
      "https://vm.tiktok.com/ZMabc/").1 _ rfl,
   (get_redirect_url_best_effort (fun _ => Except.error ())
      "https://vm.tiktok.com/ZMabc/").2 () rfl⟩

/-- Claim C7 (amended): when the page fetch times out, fetch_tiktok_data
returns the failure record naming a timeout; every other exception raised
during fetching is caught and mapped to a failure record whose message is the
fixed Portuguese prefix Erro ao processar followed by the exception's own
description - the exception never propagates, but contrary to the original
claim its internal description does appear in the response. -/
theorem fetch_exception_mapping (rc : String → Except Unit String)
    (jdec : String → Option Json) (em : String → String) (url m : String) :
    fetch_tiktok_data rc (fun _ => FetchResult.timeout) jdec em url =
      { success := false, error := Json.str "Timeout ao acessar o TikTok" } ∧
    fetch_tiktok_data rc (fun _ => FetchResult.exn m) jdec em url =
      { success := false, error := Json.str ("Erro ao processar: " ++ m) } := by
  constructor <;>
    · unfold fetch_tiktok_data
      split <;> rfl

/-- Claim C7, counterexample: two different internal exception descriptions
produce two different response messages, so the mapped message is not a fixed
generic user-facing string and internal exception details do leak into the
response. -/
theorem fetch_error_message_not_generic :
    (fetch_tiktok_data (fun u => Except.ok u) (fun _ => FetchResult.exn "boom")
        (fun _ => none) (fun _ => "e") "https://www.tiktok.com/x").error =
      Json.str "Erro ao processar: boom" ∧
    (fetch_tiktok_data (fun u => Except.ok u) (fun _ => FetchResult.exn "ssl error")
        (fun _ => none) (fun _ => "e") "https://www.tiktok.com/x").error =
      Json.str "Erro ao processar: ssl error" ∧
    Json.str "Erro ao processar: boom" ≠ Json.str "Erro ao processar: ssl error" := by
  refine ⟨rfl, rfl, ?_⟩
  intro h
  have h2 : "Erro ao processar: boom" = "Erro ao processar: ssl error" := by injection h
  exact absurd h2 (by decide)

/-- fetch_try3 against the spec-side shape 3 -/
theorem fetch_try3_spec (em : String → String) (html : String) :
    fetch_try3 em html = (spec_shape3 em html).getD
      { success := false, error := Json.str "Não foi possível extrair dados do vídeo" } := by
  unfold fetch_try3 spec_shape3
  cases h3 : findDownloadAddr html with
  | none => simp
  | some cap => cases hu : unicode_escape cap <;> simp [hu]

/-- fetch_try2 against the spec-side shapes 2 and 3 -/
theorem fetch_try2_spec (jdec : String → Option Json) (em : String → String)
    (html : String) :
    fetch_try2 jdec em html =
      ((spec_shape2 jdec html).orElse (fun _ => spec_shape3 em html)).getD
        { success := false, error := Json.str "Não foi possível extrair dados do vídeo" } := by
  unfold fetch_try2 spec_shape2
  cases h2 : findUniversal html with
  | none => simpa [Option.orElse] using fetch_try3_spec em html
  | some p =>
    cases hj : jdec p with
    | none => simpa [hj, Option.orElse] using fetch_try3_spec em html
    | some d => simp [hj, Option.orElse]

/-- Claim C2 (amended): for every fetched HTML body, fetch_tiktok_data tries
the three embedded-payload shapes in the fixed order (1) SIGI state blob,
(2) rehydration-data blob, (3) raw downloadAddr regex scan, returning the
first applicable shape's result: a matched raw capture on which the
backslash decoding raises yields the caught-exception record (Erro ao
processar followed by the decode error's description), and if no shape
applies the result is the extraction-failure record whose message is Não
foi possível extrair dados do vídeo (could not extract video data) - not
the parsers' unrecognized-format record the original claim names. Stated
as equality with the spec-side cascade spec_shape_cascade for every
decoder, every decode-error rendering and every HTML body. -/
theorem fetch_shape_cascade_refines_spec (rc : String → Except Unit String)
    (jdec : String → Option Json) (em : String → String) (url html : String) :
    fetch_tiktok_data rc (fun _ => FetchResult.ok html) jdec em url =
      spec_shape_cascade jdec em html := by
  unfold fetch_tiktok_data spec_shape_cascade spec_shape1
  split <;>
  · cases h1 : findSigi html with
    | none => simpa [h1, Option.orElse] using fetch_try2_spec jdec em html
    | some p =>
      cases hj : jdec p with
      | none => simpa [h1, hj, Option.orElse] using fetch_try2_spec jdec em html
      | some d => simp [h1, hj, Option.orElse]

/-- Claim C2, counterexample: on an HTML body that matches none of the three
shapes, the returned failure message is the extraction-failure one, which is
a different string from the unrecognized-data-format message the claim
specifies. -/
theorem fetch_fallthrough_message_counterexample :
    fetch_tiktok_data (fun u => Except.ok u) (fun _ => FetchResult.ok "<html></html>")
        (fun _ => none) (fun _ => "e") "https://www.tiktok.com/x" =
      { success := false, error := Json.str "Não foi possível extrair dados do vídeo" } ∧
    Json.str "Não foi possível extrair dados do vídeo" ≠
      Json.str "Formato de dados não reconhecido" := by
  refine ⟨rfl, ?_⟩
  intro h
  have h2 : "Não foi possível extrair dados do vídeo" = "Formato de dados não reconhecido" := by
    injection h
  exact absurd h2 (by decide)

/-- Claim C6 (amended): for every HTML body where the two script-payload
shapes fail but the raw downloadAddr regex matches, fetch_tiktok_data
applies backslash-escape decoding to the captured value. When the decode
succeeds, the result is a success record in which the decoded URL is the
generic video URL and the HD URL - contrary to the original claim the SD
field is not set (absent, modelled as null) and no other metadata fields
are set. When the codec raises (a trailing backslash, a truncated or
malformed escape), the exception is caught by the outer handler and the
result is the caught-exception failure record, not a success record. -/
theorem raw_download_addr_record (rc : String → Except Unit String)
    (jdec : String → Option Json) (em : String → String) (url html cap : String)
    (h1 : findSigi html = none) (h2 : findUniversal html = none)
    (h3 : findDownloadAddr html = some cap) :
    (∀ u, unicode_escape cap = some u →
      fetch_tiktok_data rc (fun _ => FetchResult.ok html) jdec em url =
        { success := true, video := Json.str u, video_hd := Json.str u }) ∧
    (unicode_escape cap = none →
      fetch_tiktok_data rc (fun _ => FetchResult.ok html) jdec em url =
        { success := false, error := Json.str ("Erro ao processar: " ++ em cap) }) := by
  constructor
  · intro u hu
    unfold fetch_tiktok_data
    split <;> simp [h1, fetch_try2, h2, fetch_try3, h3, hu]
  · intro hu
    unfold fetch_tiktok_data
    split <;> simp [h1, fetch_try2, h2, fetch_try3, h3, hu]

theorem raw_download_addr_record_witness :
    fetch_tiktok_data (fun u => Except.ok u)
        (fun _ => FetchResult.ok "x \"downloadAddr\": \"https:\\u002F\\u002Fv.example\\u002Fa.mp4\"")
        (fun _ => none) (fun _ => "truncated escape") "https://www.tiktok.com/x" =
      { success := true,
        video := Json.str "https://v.example/a.mp4",
        video_hd := Json.str "https://v.example/a.mp4" } ∧
    fetch_tiktok_data (fun u => Except.ok u)
        (fun _ => FetchResult.ok "y \"downloadAddr\": \"abc\\\"")
        (fun _ => none) (fun _ => "truncated escape") "https://www.tiktok.com/x" =
      { success := false,
        error := Json.str ("Erro ao processar: " ++ "truncated escape") } := by
  constructor
  · exact (raw_download_addr_record (fun u => Except.ok u) (fun _ => none)
      (fun _ => "truncated escape") "https://www.tiktok.com/x"
      "x \"downloadAddr\": \"https:\\u002F\\u002Fv.example\\u002Fa.mp4\""
      "https:\\u002F\\u002Fv.example\\u002Fa.mp4"
      (by decide) (by decide) (by decide)).1 "https://v.example/a.mp4" (by decide)
  · exact (raw_download_addr_record (fun u => Except.ok u) (fun _ => none)
      (fun _ => "truncated escape") "https://www.tiktok.com/x"
      "y \"downloadAddr\": \"abc\\\"" "abc\\"
      (by decide) (by decide) (by decide)).2 (by decide)

/-- Claim C6, counterexample: on a concrete raw-downloadAddr HTML body the
HD field carries the captured URL but the SD field is absent (null), so the
decoded URL is not both the HD and the SD media URL as claimed. -/
theorem raw_download_addr_no_sd_counterexample :
    (fetch_tiktok_data (fun u => Except.ok u)
        (fun _ => FetchResult.ok "x \"downloadAddr\": \"https://v.example/b.mp4\"")
        (fun _ => none) (fun _ => "e") "https://www.tiktok.com/x").video_hd =
      Json.str "https://v.example/b.mp4" ∧
    (fetch_tiktok_data (fun u => Except.ok u)
        (fun _ => FetchResult.ok "x \"downloadAddr\": \"https://v.example/b.mp4\"")
        (fun _ => none) (fun _ => "e") "https://www.tiktok.com/x").video_sd = Json.null ∧
    Json.null ≠ Json.str "https://v.example/b.mp4" :=
  ⟨rfl, rfl, fun h => Json.noConfusion h⟩

/-- Claim C5 (amended): extract_video_id applies its four pattern rules in
the fixed priority order and returns the capture of the first rule that
matches; when no rule matches it returns None directly - the source has no
fallback heuristic over path segments. -/
theorem extract_video_id_first_match_or_none (url : String) :
    extract_video_id url =
      ((trySuffixes m1At url.toList).orElse (fun _ =>
        (trySuffixes m2At url.toList).orElse (fun _ =>
          (trySuffixes m3At url.toList).orElse (fun _ => trySuffixes m4At url.toList)))) ∧
    (extract_video_id url = none ↔
      trySuffixes m1At url.toList = none ∧ trySuffixes m2At url.toList = none ∧
      trySuffixes m3At url.toList = none ∧ trySuffixes m4At url.toList = none) := by
  unfold extract_video_id
  cases trySuffixes m1At url.toList <;> cases trySuffixes m2At url.toList <;>
    cases trySuffixes m3At url.toList <;> cases trySuffixes m4At url.toList <;>
      simp [Option.orElse]

/-- Claim C5, counterexample: a URL on which no pattern rule matches but
whose path contains a numeric segment longer than 10 digits: the claimed
fallback heuristic would return that segment, yet extract_video_id returns
None. -/
theorem extract_video_id_no_fallback_counterexample :
    extract_video_id "https://www.tiktok.com/embed/12345678901234567" = none ∧
    spec_fallback_heuristic "https://www.tiktok.com/embed/12345678901234567" =
      some "12345678901234567" := by
  constructor <;> decide

/-- Claim C3 (amended): for every one-item SIGI payload, the normalized
result takes the video URL as downloadAddr when present with a non-empty
value, else playAddr; the thumbnail as cover when present and non-empty, else
originCover; the author as uniqueId when present and non-empty, else
nickname; and the title as the description, with the fixed placeholder
Vídeo do TikTok substituted exactly when the description key is absent.
The present-and-non-empty qualification (Python or-truthiness) corrects the
original claim's plain if-present wording. -/
theorem sigi_field_selection (vid : String) (dl pl cv oc uid nick : Option String)
    (descv : Option String) :
    parse_sigi_data (sigiItemPayload vid
      [("downloadAddr", jsonOfOptStr dl), ("playAddr", jsonOfOptStr pl),
       ("cover", jsonOfOptStr cv), ("originCover", jsonOfOptStr oc)]
      [("uniqueId", jsonOfOptStr uid), ("nickname", jsonOfOptStr nick)]
      (descv.map Json.str)) =
    { success := true,
      video := firstTruthyStr dl pl,
      video_hd := jsonOfOptStr dl,
      video_sd := jsonOfOptStr pl,
      thumbnail := firstTruthyStr cv oc,
      title := Json.str (descv.getD "Vídeo do TikTok"),
      author := firstTruthyStr uid nick,
      duration := Json.null } := by
  cases descv <;>
    · unfold parse_sigi_data parse_sigi_body sigiItemPayload
      simp only [pyGetD, pyKeys, pySubscript, pyLookup, pyLookup_self, pyTruthy, optEntry,
        Option.map_some, Option.map_none, Option.getD_some, Option.getD_none,
        List.map_cons, List.map_nil, List.head?_cons, List.append_nil, List.cons_append,
        List.nil_append, eq_self_iff_true, if_true, String.reduceEq, reduceIte]
      simp [pyOr_jsonOfOptStr, pyTruthy, Option.getD]

/-- Claim C3, counterexample: a payload whose downloadAddr is present but
empty: the code falls through to playAddr, so the video URL differs from the
present downloadAddr value the claim prescribes. -/
theorem sigi_empty_download_addr_counterexample :
    (parse_sigi_data (sigiItemPayload "1"
      [("downloadAddr", Json.str ""), ("playAddr", Json.str "https://sd.example/v")]
      [] none)).video = Json.str "https://sd.example/v" ∧
    Json.str "https://sd.example/v" ≠ Json.str "" := by
  refine ⟨rfl, ?_⟩
  intro h
  have h2 : "https://sd.example/v" = "" := by injection h
  exact absurd h2 (by decide)

/-- Claim C8 (amended): in both parsers' normalized success records, the
duration is the decimal rendering of the payload duration suffixed with s
when that number is present and non-zero, and is absent (null) when the
payload carries no duration or carries duration zero - the zero case
corrects the original claim, which promised a rendering for every present
duration. -/
theorem duration_rendering (vid : String) (d : Option Int) :
    (parse_sigi_data (sigiItemPayload vid [("duration", jsonOfOptInt d)] [] none)).duration =
      specDuration d ∧
    (parse_universal_data (universalItemPayload [("duration", jsonOfOptInt d)] [] none)).duration =
      specDuration d := by
  have hu : ∀ j : Json,
      (parse_universal_data (universalItemPayload [("duration", j)] [] none)).duration =
      (if pyTruthy j then Json.str (pyStr j ++ "s") else Json.null) := fun j => rfl
  constructor
  · unfold parse_sigi_data parse_sigi_body sigiItemPayload
    simp only [pyGetD, pyKeys, pySubscript, pyLookup, pyLookup_self, pyTruthy, optEntry,
      Option.getD_some, Option.getD_none,
      List.map_cons, List.map_nil, List.head?_cons, List.append_nil, List.cons_append,
      List.nil_append, eq_self_iff_true, if_true, String.reduceEq, reduceIte]
    cases d with
    | none => simp [jsonOfOptInt, specDuration, pyTruthy]
    | some n =>
      by_cases hn : n = 0 <;>
        simp [jsonOfOptInt, specDuration, pyTruthy, pyStr, hn]
  · rw [hu]
    cases d with
    | none => simp [jsonOfOptInt, specDuration, pyTruthy]
    | some n =>
      by_cases hn : n = 0 <;>
        simp [jsonOfOptInt, specDuration, pyTruthy, pyStr, hn]

/-- Claim C8, counterexample: a payload with duration 0 (present): Python
truthiness makes the conditional fall to None, so the result's duration is
absent rather than the claimed 0s rendering. -/
theorem duration_zero_counterexample :
    (parse_sigi_data (sigiItemPayload "1" [("duration", Json.num 0)] [] none)).duration =
      Json.null ∧
    Json.null ≠ Json.str "0s" :=
  ⟨rfl, fun h => Json.noConfusion h⟩

/-- Claim C9: in the spec-modelled third-party aggregation strategy, every
API body whose status code field is non-zero resolves to
Failure(NotFound, video not found or private); a returned media URL that
does not start with a scheme is prefixed with the known API host, an
already-absolute URL passes through unchanged, and on status code zero the
success record routes every media URL through that prefixing step. -/
theorem resolve_api_spec (host : String) (resp : ApiResponse) (u : String) :
    (resp.code ≠ 0 →
      resolve_api host resp =
        ResolutionResult.failure ErrorKind.NotFound "video not found or private") ∧
    (startsWithHttp u = false → make_absolute host u = host ++ u) ∧
    (startsWithHttp u = true → make_absolute host u = u) ∧
    (resp.code = 0 →
      resolve_api host resp = ResolutionResult.success
        { hd := make_absolute host ((resp.hdplay).getD ((resp.play).getD ""))
          sd := make_absolute host ((resp.play).getD "")
          cover := (resp.cover).map (make_absolute host)
          title := (resp.title).getD "Vídeo do TikTok"
          author := resp.author_nickname
          duration := resp.duration }) := by
  refine ⟨?_, ?_, ?_, ?_⟩ <;> intro h <;> simp [resolve_api, make_absolute, h]

theorem resolve_api_spec_witness :
    resolve_api "https://api.example" { code := 1 } =
      ResolutionResult.failure ErrorKind.NotFound "video not found or private" ∧
    make_absolute "https://api.example" "/media/v.mp4" = "https://api.example/media/v.mp4" ∧
    make_absolute "https://api.example" "https://cdn.example/v.mp4" =
      "https://cdn.example/v.mp4" := by
  refine ⟨(resolve_api_spec "https://api.example" { code := 1 } "x").1 (by decide), ?_, ?_⟩
  · rw [(resolve_api_spec "https://api.example" { code := 1 } "/media/v.mp4").2.1 (by decide)]
    rfl
  · exact (resolve_api_spec "https://api.example" { code := 1 }
      "https://cdn.example/v.mp4").2.2.1 (by decide)

/-- parse_sigi_body only succeeds with success records -/
theorem parse_sigi_body_success (d : Json) (r : ResultDict)
    (h : parse_sigi_body d = some r) : r.success = true := by
  unfold parse_sigi_body at h
  repeat' (split at h)
  all_goals (cases h)
  all_goals rfl

/-- parse_universal_body only succeeds with success records -/
theorem parse_universal_body_success (d : Json) (r : ResultDict)
    (h : parse_universal_body d = some r) : r.success = true := by
  unfold parse_universal_body at h
  repeat' (split at h)
  all_goals (cases h)
  all_goals rfl

/-- Claim C10: parse_sigi_data and parse_universal_data are total at the
public boundary - they are plain functions into ResultDict, so no exception
escapes - and for every input value (empty, malformed or wrongly typed
payloads included) the result is either a success record or exactly the
fixed failure record with message Formato de dados não reconhecido. -/
theorem parsers_total_or_fixed_failure (d : Json) :
    ((parse_sigi_data d).success = true ∨
      parse_sigi_data d = unrecognized_format_record) ∧
    ((parse_universal_data d).success = true ∨
      parse_universal_data d = unrecognized_format_record) := by
  constructor
  · cases hb : parse_sigi_body d with
    | none => right; simp [parse_sigi_data, hb]
    | some r => left; simp [parse_sigi_data, hb, parse_sigi_body_success d r hb]
  · cases hb : parse_universal_body d with
    | none => right; simp [parse_universal_data, hb]
    | some r => left; simp [parse_universal_data, hb, parse_universal_body_success d r hb]
